import Mathlib

/-!
Verification of the schema translator in eralchemy/sqla.py.

The module transforms SQLAlchemy metadata (tables, columns, foreign keys)
into the intermediary representation made of generic Table, Column and
Relation records.  We embed the Python code shallowly: duck-typed ORM
objects become structures carrying exactly the attributes the translator
reads, and Python exceptions raised during the string conversion of a
column type become an explicit `Except` value.
-/

set_option linter.unusedVariables false

deriving instance DecidableEq for Except

namespace Eralchemy

/-- Exceptions that the string conversion of a column type may raise.
`compileError` models sqlalchemy.exc.CompileError; `other` models any
other Python exception, tagged with its message. -/
inductive PyExc where
  | compileError
  | other (msg : String)
deriving DecidableEq, Repr

/-- An SQLAlchemy type object, reduced to the one capability the
translator uses: its string conversion `unicode(typ)`, which either
produces a string or raises an exception. -/
structure SqlType where
  strConv : Except PyExc String
deriving DecidableEq, Repr

/-- An SQLAlchemy Column object, reduced to the attributes read by the
translator: `name`, `type`, the primary-key flag, the nullability flag,
and the fully-qualified name of the owning table (`col.table.fullname`,
read only on foreign-key endpoints). -/
structure SAColumn where
  name : String
  type : SqlType
  primary_key : Bool
  nullable : Bool
  tableFullname : String
deriving DecidableEq, Repr

/-- An SQLAlchemy ForeignKey object: `parent` is the column holding the
key, `column` is the referred column. -/
structure SAForeignKey where
  parent : SAColumn
  column : SAColumn
deriving DecidableEq, Repr

/-- An SQLAlchemy Table object, reduced to what the translator reads:
`fullname`, the columns in declaration order (`table.c._data.values()`),
and the foreign keys in the iteration order of `table.foreign_keys`. -/
structure SATable where
  fullname : String
  columns : List SAColumn
  foreign_keys : List SAForeignKey
deriving DecidableEq, Repr

/-- An SQLAlchemy MetaData object: `metadata.tables.values()` iterated in
insertion order. -/
structure SAMetadata where
  tables : List SATable
deriving DecidableEq, Repr

/-- An SQLAlchemy declarative base, reduced to its attached metadata. -/
structure SABase where
  metadata : SAMetadata
deriving DecidableEq, Repr

/-- A mapped class produced by automap, reduced to its `__name__`. -/
structure SAClass where
  name : String
deriving DecidableEq, Repr

/-- Modelled from the spec: the intermediary Column record of
eralchemy.models (the models module is not part of the sources given),
holding a name, a rendered type string and a primary-key flag. -/
structure Column where
  name : String
  type : String
  is_key : Bool
deriving DecidableEq, Repr

/-- Modelled from the spec: the intermediary Table record of
eralchemy.models, holding a fully-qualified name and the ordered list of
its columns. -/
structure Table where
  name : String
  columns : List Column
deriving DecidableEq, Repr

/-- Modelled from the spec: the intermediary Relation record of
eralchemy.models.  Despite their names, `left_col` and `right_col` hold
fully-qualified table names; each cardinality is one of the four symbols
`*`, `+`, `?`, `1`. -/
structure Relation where
  left_col : String
  right_col : String
  left_cardinality : String
  right_cardinality : String
deriving DecidableEq, Repr

/-- Embedding of a Python list comprehension whose body may raise: the
elements are processed left to right and the first exception propagates,
aborting the whole comprehension. -/
def mapExcept {α β ε : Type} (f : α → Except ε β) : List α → Except ε (List β)
  | [] => Except.ok []
  | a :: as =>
    match f a with
    | Except.error e => Except.error e
    | Except.ok b =>
      match mapExcept f as with
      | Except.error e => Except.error e
      | Except.ok bs => Except.ok (b :: bs)

/-- Embedding of `format_name`: `unicode(name)` applied to a value that
is already a string is the identity. -/
def format_name (name : String) : String :=
  name

/-- Embedding of `relation_to_intermediary`: builds a Relation from a
ForeignKey, taking the fullnames of the two owning tables and deriving
the two cardinalities from the nullability of the two columns. -/
def relation_to_intermediary (fk : SAForeignKey) : Relation :=
  let parent := fk.parent
  let referred := fk.column
  { left_col := format_name parent.tableFullname
    right_col := format_name referred.tableFullname
    left_cardinality := if parent.nullable then "*" else "+"
    right_cardinality := if referred.nullable then "?" else "1" }

/-- Embedding of `format_type`: tries `unicode(typ)`, catches a
CompileError and substitutes the literal string Null, and lets every
other exception propagate. -/
def format_type (typ : SqlType) : Except PyExc String :=
  match typ.strConv with
  | Except.ok s => Except.ok s
  | Except.error PyExc.compileError => Except.ok "Null"
  | Except.error e => Except.error e

/-- Embedding of `column_to_intermediary`: builds a Column from an
SQLAlchemy column, applying the supplied type formatter (the Python
default argument is `format_type`; call sites inside this module pass it
explicitly). -/
def column_to_intermediary (col : SAColumn)
    (type_formatter : SqlType → Except PyExc String) : Except PyExc Column :=
  match type_formatter col.type with
  | Except.error e => Except.error e
  | Except.ok t => Except.ok { name := col.name, type := t, is_key := col.primary_key }

/-- Embedding of `table_to_intermediary`: builds a Table from the
fullname and the columns translated in declaration order with the
default type formatter. -/
def table_to_intermediary (table : SATable) : Except PyExc Table :=
  match mapExcept (fun col => column_to_intermediary col format_type) table.columns with
  | Except.error e => Except.error e
  | Except.ok cols => Except.ok { name := table.fullname, columns := cols }

/-- Embedding of `metadata_to_intermediary`: translates every table of
the metadata in iteration order, then every foreign key of every table
in table order then per-table foreign-key order, and returns the pair. -/
def metadata_to_intermediary (metadata : SAMetadata) :
    Except PyExc (List Table × List Relation) :=
  match mapExcept table_to_intermediary metadata.tables with
  | Except.error e => Except.error e
  | Except.ok tables =>
    Except.ok
      (tables,
       (metadata.tables.map (fun t => t.foreign_keys.map relation_to_intermediary)).flatten)

/-- Embedding of `declarative_to_intermediary`: delegates to
`metadata_to_intermediary` on the metadata attached to the base. -/
def declarative_to_intermediary (base : SABase) :
    Except PyExc (List Table × List Relation) :=
  metadata_to_intermediary base.metadata

/-- Embedding of `name_for_scalar_relationship`: the naming callback
handed to automap, returning the lowercased name of the referred class
followed by the suffix _ref. -/
def name_for_scalar_relationship (base : SABase) (local_cls : SAClass)
    (referred_cls : SAClass) (constraint : SAForeignKey) : String :=
  referred_cls.name.toLower ++ "_ref"

/-- Successful mapExcept preserves the length of the list. -/
theorem mapExcept_ok_length {α β ε : Type} (f : α → Except ε β) :
    ∀ (l : List α) (l' : List β), mapExcept f l = Except.ok l' → l'.length = l.length := by
  intro l
  induction l with
  | nil =>
    intro l' h
    simp [mapExcept] at h
    subst h
    rfl
  | cons a as ih =>
    intro l' h
    cases hfa : f a with
    | error e => simp [mapExcept, hfa] at h
    | ok b =>
      cases hrest : mapExcept f as with
      | error e => simp [mapExcept, hfa, hrest] at h
      | ok bs =>
        simp [mapExcept, hfa, hrest] at h
        subst h
        simp [ih bs hrest]

/-- Successful mapExcept sends the element at each position to the ok
value at the same position of the output. -/
theorem mapExcept_ok_get {α β ε : Type} (f : α → Except ε β) :
    ∀ (l : List α) (l' : List β), mapExcept f l = Except.ok l' →
      ∀ (i : Nat) (hi : i < l.length) (hi' : i < l'.length),
        f (l.get ⟨i, hi⟩) = Except.ok (l'.get ⟨i, hi'⟩) := by
  intro l
  induction l with
  | nil =>
    intro l' h i hi hi'
    simp at hi
  | cons a as ih =>
    intro l' h i hi hi'
    cases hfa : f a with
    | error e => simp [mapExcept, hfa] at h
    | ok b =>
      cases hrest : mapExcept f as with
      | error e => simp [mapExcept, hfa, hrest] at h
      | ok bs =>
        simp [mapExcept, hfa, hrest] at h
        subst h
        cases i with
        | zero => simpa using hfa
        | succ n =>
          have hn : n < as.length := by simpa using hi
          have hn' : n < bs.length := by simpa using hi'
          exact ih bs hrest n hn hn'

/-- Round-trip scenario of the spec: metadata with two tables users and
orders and a foreign key from orders.user_id to users.id translates to
the two expected tables and the single relation orders to users with
cardinalities plus and 1. -/
theorem users_orders_roundtrip :
    metadata_to_intermediary
      ⟨[⟨"users",
          [⟨"id", ⟨Except.ok "INTEGER"⟩, true, false, "users"⟩,
           ⟨"name", ⟨Except.ok "VARCHAR"⟩, false, true, "users"⟩], []⟩,
        ⟨"orders",
          [⟨"id", ⟨Except.ok "INTEGER"⟩, true, false, "orders"⟩,
           ⟨"user_id", ⟨Except.ok "INTEGER"⟩, false, false, "orders"⟩],
          [⟨⟨"user_id", ⟨Except.ok "INTEGER"⟩, false, false, "orders"⟩,
            ⟨"id", ⟨Except.ok "INTEGER"⟩, true, false, "users"⟩⟩]⟩]⟩
      = Except.ok
          ([⟨"users", [⟨"id", "INTEGER", true⟩, ⟨"name", "VARCHAR", false⟩]⟩,
            ⟨"orders", [⟨"id", "INTEGER", true⟩, ⟨"user_id", "INTEGER", false⟩]⟩],
           [⟨"orders", "users", "+", "1"⟩]) :=
  rfl

/-- C1: for every foreign key, the relation produced by
relation_to_intermediary carries left cardinality star when the parent
(foreign-key-holding) column is nullable and plus otherwise, and right
cardinality the question mark when the referred column is nullable and
the symbol 1 otherwise. -/
theorem relation_cardinalities (fk : SAForeignKey) :
    (relation_to_intermediary fk).left_cardinality
        = (if fk.parent.nullable then "*" else "+") ∧
    (relation_to_intermediary fk).right_cardinality
        = (if fk.column.nullable then "?" else "1") :=
  ⟨rfl, rfl⟩

/-- C5: for every foreign key, the relation produced by
relation_to_intermediary stores in left_col the fully-qualified name of
the table owning the parent column and in right_col the fully-qualified
name of the table owning the referred column: both are table names. -/
theorem relation_endpoints (fk : SAForeignKey) :
    (relation_to_intermediary fk).left_col = fk.parent.tableFullname ∧
    (relation_to_intermediary fk).right_col = fk.column.tableFullname :=
  ⟨rfl, rfl⟩

/-- C9: every relation produced by relation_to_intermediary draws its
left cardinality from the set containing star and plus only, and its
right cardinality from the set containing the question mark and the
symbol 1 only. -/
theorem relation_cardinality_range (fk : SAForeignKey) :
    ((relation_to_intermediary fk).left_cardinality = "*" ∨
     (relation_to_intermediary fk).left_cardinality = "+") ∧
    ((relation_to_intermediary fk).right_cardinality = "?" ∨
     (relation_to_intermediary fk).right_cardinality = "1") ∧
    (relation_to_intermediary fk).left_cardinality ≠ "?" ∧
    (relation_to_intermediary fk).left_cardinality ≠ "1" ∧
    (relation_to_intermediary fk).right_cardinality ≠ "*" ∧
    (relation_to_intermediary fk).right_cardinality ≠ "+" := by
  cases hp : fk.parent.nullable <;> cases hr : fk.column.nullable <;>
    simp [relation_to_intermediary, hp, hr]

/-- C3: the default type formatter returns the string conversion of the
type object; exactly a CompileError raised by that conversion is caught
and replaced by the literal string Null, any other exception propagates
unsuppressed, and the formatter produces Null by substitution only when
a CompileError was raised. -/
theorem format_type_spec (typ : SqlType) :
    (∀ s, typ.strConv = Except.ok s → format_type typ = Except.ok s) ∧
    (typ.strConv = Except.error PyExc.compileError →
        format_type typ = Except.ok "Null") ∧
    (∀ m, typ.strConv = Except.error (PyExc.other m) →
        format_type typ = Except.error (PyExc.other m)) ∧
    (format_type typ = Except.ok "Null" →
        typ.strConv = Except.error PyExc.compileError ∨
        typ.strConv = Except.ok "Null") := by
  obtain ⟨sc⟩ := typ
  cases sc with
  | ok s =>
    refine ⟨?_, ?_, ?_, ?_⟩ <;> intros <;> simp_all [format_type]
  | error e =>
    cases e <;> refine ⟨?_, ?_, ?_, ?_⟩ <;> intros <;> simp_all [format_type]

/-- Witness for C3 at two concrete types: a type rendering to INTEGER is
returned unchanged, and a type raising CompileError renders as Null. -/
theorem format_type_spec_witness :
    format_type ⟨Except.ok "INTEGER"⟩ = Except.ok "INTEGER" ∧
    format_type ⟨Except.error PyExc.compileError⟩ = Except.ok "Null" :=
  ⟨(format_type_spec ⟨Except.ok "INTEGER"⟩).1 "INTEGER" rfl,
   (format_type_spec ⟨Except.error PyExc.compileError⟩).2.1 rfl⟩

/-- C4: whenever column_to_intermediary produces a Column, under any
type formatter, the produced record has is_key equal to the primary-key
flag of the source column and name equal to the name of the source
column. -/
theorem column_translation (col : SAColumn)
    (type_formatter : SqlType → Except PyExc String) (c : Column)
    (h : column_to_intermediary col type_formatter = Except.ok c) :
    c.is_key = col.primary_key ∧ c.name = col.name := by
  unfold column_to_intermediary at h
  cases hf : type_formatter col.type with
  | error e =>
    rw [hf] at h
    simp at h
  | ok t =>
    rw [hf] at h
    simp at h
    subst h
    exact ⟨rfl, rfl⟩

/-- Witness for C4 at a concrete primary-key column named id. -/
theorem column_translation_witness :
    (Column.mk "id" "INTEGER" true).is_key
        = (SAColumn.mk "id" ⟨Except.ok "INTEGER"⟩ true false "users").primary_key ∧
    (Column.mk "id" "INTEGER" true).name
        = (SAColumn.mk "id" ⟨Except.ok "INTEGER"⟩ true false "users").name :=
  column_translation ⟨"id", ⟨Except.ok "INTEGER"⟩, true, false, "users"⟩ format_type
    ⟨"id", "INTEGER", true⟩ rfl

/-- C6: whenever table_to_intermediary produces a Table, its name is the
fullname of the source table, its column list has the same length as the
declaration-order column list of the source table, and the column at
each position is the translation of the source column at that
position. -/
theorem table_translation (table : SATable) (t : Table)
    (h : table_to_intermediary table = Except.ok t) :
    t.name = table.fullname ∧
    t.columns.length = table.columns.length ∧
    ∀ (i : Nat) (hi : i < table.columns.length) (hi' : i < t.columns.length),
      column_to_intermediary (table.columns.get ⟨i, hi⟩) format_type
        = Except.ok (t.columns.get ⟨i, hi'⟩) := by
  unfold table_to_intermediary at h
  cases hm : mapExcept (fun col => column_to_intermediary col format_type) table.columns with
  | error e =>
    rw [hm] at h
    simp at h
  | ok cols =>
    rw [hm] at h
    simp at h
    subst h
    refine ⟨rfl, mapExcept_ok_length _ _ _ hm, ?_⟩
    intro i hi hi'
    exact mapExcept_ok_get _ _ _ hm i hi hi'

/-- Witness for C6 at a one-column table: the name carries over and the
single column is translated in place. -/
theorem table_translation_witness :
    (Table.mk "users" [⟨"id", "INTEGER", true⟩]).name = "users" ∧
    column_to_intermediary (SAColumn.mk "id" ⟨Except.ok "INTEGER"⟩ true false "users")
        format_type
      = Except.ok (Column.mk "id" "INTEGER" true) :=
  ⟨(table_translation
      ⟨"users", [⟨"id", ⟨Except.ok "INTEGER"⟩, true, false, "users"⟩], []⟩
      ⟨"users", [⟨"id", "INTEGER", true⟩]⟩ rfl).1,
   (table_translation
      ⟨"users", [⟨"id", ⟨Except.ok "INTEGER"⟩, true, false, "users"⟩], []⟩
      ⟨"users", [⟨"id", "INTEGER", true⟩]⟩ rfl).2.2 0 (by decide) (by decide)⟩

/-- C2: whenever metadata_to_intermediary produces a pair, the tables
component is the list of translated tables in iteration order (same
length, translation at every position), the relations component is the
concatenation over the tables in order of the translations of their
foreign keys in per-table order, and metadata with zero tables yields
the pair of two empty lists. -/
theorem metadata_translation (metadata : SAMetadata) (tables : List Table)
    (relations : List Relation)
    (h : metadata_to_intermediary metadata = Except.ok (tables, relations)) :
    mapExcept table_to_intermediary metadata.tables = Except.ok tables ∧
    tables.length = metadata.tables.length ∧
    (∀ (i : Nat) (hi : i < metadata.tables.length) (hi' : i < tables.length),
        table_to_intermediary (metadata.tables.get ⟨i, hi⟩)
          = Except.ok (tables.get ⟨i, hi'⟩)) ∧
    relations
      = (metadata.tables.map
          (fun t => t.foreign_keys.map relation_to_intermediary)).flatten ∧
    (metadata.tables = [] → tables = [] ∧ relations = []) := by
  unfold metadata_to_intermediary at h
  cases hm : mapExcept table_to_intermediary metadata.tables with
  | error e =>
    rw [hm] at h
    simp at h
  | ok ts =>
    rw [hm] at h
    simp at h
    obtain ⟨hts, hrels⟩ := h
    subst hts
    subst hrels
    refine ⟨rfl, mapExcept_ok_length _ _ _ hm,
      fun i hi hi' => mapExcept_ok_get _ _ _ hm i hi hi', rfl, ?_⟩
    intro he
    rw [he] at hm
    simp [mapExcept] at hm
    exact ⟨hm, by simp [he]⟩

/-- Witness for C2 at the empty metadata: translation succeeds and both
components of the pair are empty. -/
theorem metadata_translation_witness :
    mapExcept table_to_intermediary (SAMetadata.mk []).tables = Except.ok [] ∧
    (([] : List Table) = [] ∧ ([] : List Relation) = []) :=
  ⟨(metadata_translation ⟨[]⟩ [] [] rfl).1,
   (metadata_translation ⟨[]⟩ [] [] rfl).2.2.2.2 rfl⟩

/-- C7 counterexample: a type whose string conversion raises an
exception that is not a CompileError makes the default formatter
propagate the exception instead of degrading to the string Null, so type
rendering can raise. -/
theorem type_rendering_total_counterexample :
    format_type ⟨Except.error (PyExc.other "TypeError")⟩
      = Except.error (PyExc.other "TypeError") ∧
    format_type ⟨Except.error (PyExc.other "TypeError")⟩ ≠ Except.ok "Null" :=
  ⟨rfl, by decide⟩

/-- C7 amended: every Column produced by the translator has string name
and type fields drawn from the source column and the formatter, type
rendering degrades to the string Null exactly on a schema-compilation
failure, and any other exception raised by the string conversion of the
type propagates out of column translation. -/
theorem column_type_rendering (col : SAColumn) :
    (∀ c, column_to_intermediary col format_type = Except.ok c →
        c.name = col.name ∧
        (col.type.strConv = Except.error PyExc.compileError → c.type = "Null") ∧
        (∀ s, col.type.strConv = Except.ok s → c.type = s)) ∧
    (∀ m, col.type.strConv = Except.error (PyExc.other m) →
        column_to_intermediary col format_type = Except.error (PyExc.other m)) := by
  obtain ⟨name, ⟨sc⟩, pk, nu, tf⟩ := col
  cases sc with
  | ok s =>
    refine ⟨fun c hc => ?_, fun m hm => absurd hm (by simp)⟩
    have hc' : Column.mk name s pk = c := by
      simpa [column_to_intermediary, format_type] using hc
    subst hc'
    refine ⟨rfl, fun h => absurd h (by simp), fun s2 hs2 => ?_⟩
    have : s = s2 := by simpa using hs2
    exact this
  | error e =>
    cases e with
    | compileError =>
      refine ⟨fun c hc => ?_, fun m hm => absurd hm (by simp)⟩
      have hc' : Column.mk name "Null" pk = c := by
        simpa [column_to_intermediary, format_type] using hc
      subst hc'
      exact ⟨rfl, fun h => rfl, fun s2 hs2 => by simp at hs2⟩
    | other m0 =>
      refine ⟨fun c hc => ?_, fun m hm => ?_⟩
      · exact absurd hc (by simp [column_to_intermediary, format_type])
      · have hmm : m0 = m := by simpa using hm
        subst hmm
        rfl

/-- Witness for the amended C7 at a column whose type raises a
CompileError: the produced column keeps its name and renders its type as
Null. -/
theorem column_type_rendering_witness :
    (Column.mk "flags" "Null" false).name = "flags" ∧
    (Column.mk "flags" "Null" false).type = "Null" :=
  ⟨((column_type_rendering
      ⟨"flags", ⟨Except.error PyExc.compileError⟩, false, true, "users"⟩).1
      ⟨"flags", "Null", false⟩ rfl).1,
   ((column_type_rendering
      ⟨"flags", ⟨Except.error PyExc.compileError⟩, false, true, "users"⟩).1
      ⟨"flags", "Null", false⟩ rfl).2.1 rfl⟩

/-- C8: declarative_to_intermediary returns exactly the result of
metadata_to_intermediary applied to the metadata attached to the base,
with no further transformation. -/
theorem declarative_delegates (base : SABase) :
    declarative_to_intermediary base = metadata_to_intermediary base.metadata :=
  rfl

/-- C10: the relationship-naming callback used during reflection returns
the lowercased name of the referred class followed by the suffix _ref,
for every invocation. -/
theorem scalar_relationship_naming (base : SABase) (local_cls : SAClass)
    (referred_cls : SAClass) (constraint : SAForeignKey) :
    name_for_scalar_relationship base local_cls referred_cls constraint
      = referred_cls.name.toLower ++ "_ref" :=
  rfl

end Eralchemy
